import Mathlib

/-!
Shallow embedding of `MetadataCrypt.cpp` (vold metadata encryption enablement).

The kernel (device-mapper driver), the property channel, the key-storage
collaborator, the mount helper and the in-place transform collaborator are
external; their outcomes are supplied as oracle fields of an `Env`, and the
observable behaviour of each operation is modelled as a result value together
with a trace of emitted events (ioctl commands, property writes, log lines,
mount calls, thread spawns).
-/

namespace MetadataCrypt

/-- Observable events of the embedded operations: device-mapper ioctl
commands, the retry delay, property writes, mount invocations, key reads,
the detached post-mount thread spawn, the in-place transform call, and log
output. -/
inductive Ev where
  | devCreate
  | devStatus
  | tableLoad
  | devSuspend
  | devRemove
  | sleepUs (usec : Nat)
  | setProp (key value : String)
  | mountCall (mount_point blk_device : String) (ok : Bool)
  | readKeyEv (create_if_absent : Bool)
  | spawnAsync
  | transformEv
  | logStr (s : List Char)
deriving DecidableEq

/-- `#define DM_CRYPT_BUF_SIZE 4096` (MetadataCrypt.cpp line 46). -/
def DM_CRYPT_BUF_SIZE : Nat := 4096

/-- `#define TABLE_LOAD_RETRIES 10` (line 47). -/
def TABLE_LOAD_RETRIES : Nat := 10

/-- `#define DEFAULT_KEY_TARGET_TYPE "default-key"` (line 48). -/
def DEFAULT_KEY_TARGET_TYPE : String := "default-key"

/-- `static const std::string kDmNameUserdata = "userdata";` (line 52). -/
def kDmNameUserdata : String := "userdata"

/-- Byte size of `struct dm_ioctl` from `linux/dm-ioctl.h` (fixed kernel ABI:
version. data fields, dev, DM_NAME_LEN = 128, DM_UUID_LEN = 129, data[7]). -/
def sizeof_dm_ioctl : Nat := 312

/-- Byte size of `struct dm_target_spec` from `linux/dm-ioctl.h`
(sector_start, length, status, next, target_type[DM_MAX_TYPE_NAME = 16]). -/
def sizeof_dm_target_spec : Nat := 40

/-- `io->data_start = sizeof(struct dm_ioctl)` (line 139). -/
def data_start : Nat := sizeof_dm_ioctl

/-- `size_t paramix = io->data_start + sizeof(struct dm_target_spec);`
(line 174). -/
def paramix : Nat := data_start + sizeof_dm_target_spec

/-- `size_t nullix = paramix + crypt_params.size();` (line 175). -/
def nullix (len : Nat) : Nat := paramix + len

/-- `size_t endix = (nullix + 1 + 7) & 8;` (line 176), verbatim: a bitwise
AND with the constant 8, exactly as the source computes it. -/
def endix (len : Nat) : Nat := (nullix len + 1 + 7) &&& 8

/-- End of the payload rounded up to the next 8-byte boundary, which is what
the comment on line 176 ("Add room for \0 and align to 8 byte boundary")
describes. -/
def alignedPaddedEnd (len : Nat) : Nat := ((nullix len + 1 + 7) / 8) * 8

/-- The fields of the table-load command buffer that lines 183-192 write:
the target-spec record and the bookkeeping of how much of `crypt_params`
the `memcpy` on lines 189-190 actually copies. -/
structure LoadBuf where
  tgt_status : Nat
  tgt_sector_start : Nat
  tgt_length : Nat
  tgt_target_type : String
  copiedLen : Nat
  tgt_next : Nat
  oobNullWrite : Bool
deriving DecidableEq

/-- The buffer-field values lines 183-192 produce: status 0, range
`[0, nr_sec)`, target type truncated to the 16-byte kernel field,
`memcpy` length clamped by `std::min(crypt_params.size(), sizeof(buffer) - paramix)`,
`tgt->next = endix`, and whether the `buffer[nullix] = 0` write on line 191
lands outside the 4096-byte buffer. -/
def mkLoadBuf (nr_sec : Nat) (target_type : String) (crypt_params : List Char) : LoadBuf :=
  { tgt_status := 0
    tgt_sector_start := 0
    tgt_length := nr_sec
    tgt_target_type := target_type.take 16
    copiedLen := min crypt_params.length (DM_CRYPT_BUF_SIZE - paramix)
    tgt_next := endix crypt_params.length
    oobNullWrite := decide (DM_CRYPT_BUF_SIZE ≤ nullix crypt_params.length) }

/-- Table construction, lines 173-192: the size check
`if (endix > sizeof(buffer))` on line 178 fails the construction (returning
`none`, the `ParamsTooLarge` outcome), otherwise the buffer fields are
written. -/
def buildTable (nr_sec : Nat) (target_type : String) (crypt_params : List Char) :
    Option LoadBuf :=
  if endix crypt_params.length > DM_CRYPT_BUF_SIZE then none
  else some (mkLoadBuf nr_sec target_type crypt_params)

/-- Byte content of the payload region of the command buffer after
lines 136 (memset to zero), 189-190 (clamped memcpy of the params at
`paramix`) and 191 (null terminator at `nullix`, modelled only when in
bounds). -/
def bufferByte (crypt_params : List Char) (i : Nat) : Char :=
  if i = nullix crypt_params.length ∧ i < DM_CRYPT_BUF_SIZE then Char.ofNat 0
  else if paramix ≤ i ∧ i < paramix + min crypt_params.length (DM_CRYPT_BUF_SIZE - paramix)
    then crypt_params.getD (i - paramix) (Char.ofNat 0)
  else Char.ofNat 0

/-- Modelled from the spec: `android::vold::StrToHex` (vold `Utils.cpp`, not
part of this fragment) hex-encodes each key byte as two hexadecimal digits,
high nibble first. -/
def hexDigit (n : Nat) : Char :=
  if n < 10 then Char.ofNat (48 + n) else Char.ofNat (97 + (n - 10))

/-- Modelled from the spec: hex encoding of a byte buffer, two digits per
byte. -/
def strToHex : List Nat → List Char
  | [] => []
  | b :: bs => hexDigit (b / 16 % 16) :: hexDigit (b % 16) :: strToHex bs

/-- The spec's encoding shape: the four fields concatenated in order with
single-space separators. Stated from the spec's words, to be compared with
the buffer `default_key_params` builds. -/
def specEncodeParams (cipher hex dev sector : List Char) : List Char :=
  cipher ++ " ".data ++ hex ++ " ".data ++ dev ++ " ".data ++ sector

/-- `default_key_params`, lines 100-109.  `hexOk` is the outcome of the
`StrToHex` call on line 102: on failure the function logs an error and
returns an empty `KeyBuffer`; on success it builds
`"AES-256-XTS " + hex_key + " " + real_blkdev + " 0"` and logs it verbatim
(line 107, `LOG(DEBUG) << "crypt_params: " << ...`). -/
def default_key_params (real_blkdev : String) (key : List Nat) (hexOk : Bool) :
    List Char × List Ev :=
  if hexOk then
    let res := "AES-256-XTS ".data ++ strToHex key ++ " ".data ++ real_blkdev.data ++ " 0".data
    (res, [Ev.logStr ("crypt_params: ".data ++ res)])
  else ([], [Ev.logStr "Failed to turn key to hex".data])

/-- Oracle environment: the outcomes the external collaborators (kernel
device-mapper driver, property channel, key storage, fstab, block device,
in-place transform, mount helper) report to the embedded code. -/
structure Env where
  encrypted_state : String
  readKeyOk : Bool
  key : List Nat
  dataRecOk : Bool
  blk_device : String
  mount_point : String
  sizingOk : Bool
  nr_sec : Nat
  hexOk : Bool
  openDmOk : Bool
  createOk : Bool
  statusOk : Bool
  statusDev : Nat
  loadOk : Nat → Bool
  suspendOk : Bool
  transformRc : Int
  size_already_done : Nat
  mountOk : Bool

/-- The retry loop of lines 194-204: attempt `i` issues a `DM_TABLE_LOAD`
ioctl; success breaks out, failure with `i + 1 >= TABLE_LOAD_RETRIES`
returns failure, otherwise the loop sleeps 500000 us and retries.  The fuel
argument only bounds the recursion; starting from attempt `i` with fuel
`TABLE_LOAD_RETRIES - i` the `i + 1 >= TABLE_LOAD_RETRIES` guard always
fires first.  Returns the emitted events and whether the load succeeded. -/
def loadEvsAux (loadOk : Nat → Bool) : Nat → Nat → List Ev × Bool
  | _, 0 => ([], false)
  | i, fuel + 1 =>
    if loadOk i then ([Ev.tableLoad], true)
    else if TABLE_LOAD_RETRIES ≤ i + 1 then ([Ev.tableLoad], false)
    else
      let r := loadEvsAux loadOk (i + 1) fuel
      (Ev.tableLoad :: Ev.sleepUs 500000 :: r.1, r.2)

/-- Device-number decoding of lines 170-171:
`(io->dev & 0xff) | ((io->dev >> 12) & 0xfff00)`. -/
def devNumber (dev : Nat) : Nat := (dev &&& 0xff) ||| ((dev >>> 12) &&& 0xfff00)

/-- `create_crypto_blk_dev`, lines 148-213: open the control device, issue
`DM_DEV_CREATE`, issue `DM_DEV_STATUS` and derive the `/dev/block/dm-N`
path, build the table (failing if the line-178 size check fires), run the
`DM_TABLE_LOAD` retry loop, and finally issue `DM_DEV_SUSPEND` to activate.
Returns the mapped device path on success, paired with the trace of
commands issued.  No failure path removes the created mapping. -/
def create_crypto_blk_dev (env : Env) (dm_name : String) (nr_sec : Nat)
    (target_type : String) (crypt_params : List Char) : Option String × List Ev :=
  if env.openDmOk = false then (none, [])
  else if env.createOk = false then (none, [Ev.devCreate])
  else if env.statusOk = false then (none, [Ev.devCreate, Ev.devStatus])
  else
    let crypto_blkdev := "/dev/block/dm-" ++ toString (devNumber env.statusDev)
    match buildTable nr_sec target_type crypt_params with
    | none => (none, [Ev.devCreate, Ev.devStatus])
    | some _ =>
      let lr := loadEvsAux env.loadOk 0 TABLE_LOAD_RETRIES
      if lr.2 = false then (none, [Ev.devCreate, Ev.devStatus] ++ lr.1)
      else if env.suspendOk = false then
        (none, ([Ev.devCreate, Ev.devStatus] ++ lr.1) ++ [Ev.devSuspend])
      else (some crypto_blkdev, ([Ev.devCreate, Ev.devStatus] ++ lr.1) ++ [Ev.devSuspend])

/-- `e4crypt_mount_metadata_encrypted`, lines 252-272: read the key (no
creation), resolve the fstab record, measure the device, provision the
mapping, then mount the mapped device (return value of `mount_via_fs_mgr`
ignored), spawn the async kick-off thread and return `true`. -/
def e4crypt_mount_metadata_encrypted (env : Env) : Bool × List Ev :=
  if env.readKeyOk = false then (false, [Ev.readKeyEv false])
  else if env.dataRecOk = false then (false, [Ev.readKeyEv false])
  else if env.sizingOk = false then (false, [Ev.readKeyEv false])
  else
    let dk := default_key_params env.blk_device env.key env.hexOk
    let c := create_crypto_blk_dev env kDmNameUserdata env.nr_sec DEFAULT_KEY_TARGET_TYPE dk.1
    match c.1 with
    | none => (false, Ev.readKeyEv false :: (dk.2 ++ c.2))
    | some crypto_blkdev =>
      (true, (Ev.readKeyEv false :: (dk.2 ++ c.2)) ++
        [Ev.mountCall env.mount_point crypto_blkdev env.mountOk, Ev.spawnAsync])

/-- `e4crypt_enable_crypto`, lines 274-319: bail out if `ro.crypto.state`
is non-empty; read the key (creating it if absent), resolve the fstab
record, measure the device, provision the mapping, run the in-place
transform; fail if its return code is non-zero or it completed fewer
sectors than requested; otherwise set `ro.crypto.state`/`ro.crypto.type`,
mount, signal `trigger_reset_main` and spawn the async kick-off thread. -/
def e4crypt_enable_crypto (env : Env) : Bool × List Ev :=
  if env.encrypted_state ≠ "" then (false, [])
  else if env.readKeyOk = false then (false, [Ev.readKeyEv true])
  else if env.dataRecOk = false then (false, [Ev.readKeyEv true])
  else if env.sizingOk = false then (false, [Ev.readKeyEv true])
  else
    let dk := default_key_params env.blk_device env.key env.hexOk
    let c := create_crypto_blk_dev env kDmNameUserdata env.nr_sec DEFAULT_KEY_TARGET_TYPE dk.1
    match c.1 with
    | none => (false, Ev.readKeyEv true :: (dk.2 ++ c.2))
    | some crypto_blkdev =>
      if env.transformRc ≠ 0 then
        (false, (Ev.readKeyEv true :: (dk.2 ++ c.2)) ++ [Ev.transformEv])
      else if env.size_already_done ≠ env.nr_sec then
        (false, (Ev.readKeyEv true :: (dk.2 ++ c.2)) ++ [Ev.transformEv])
      else
        (true, (Ev.readKeyEv true :: (dk.2 ++ c.2)) ++
          [Ev.transformEv,
           Ev.setProp "ro.crypto.state" "encrypted",
           Ev.setProp "ro.crypto.type" "file",
           Ev.mountCall env.mount_point crypto_blkdev env.mountOk,
           Ev.setProp "vold.decrypt" "trigger_reset_main",
           Ev.spawnAsync])

/-- An environment in which every collaborator reports success. -/
def goodEnv : Env :=
  { encrypted_state := ""
    readKeyOk := true
    key := [97, 255]
    dataRecOk := true
    blk_device := "/dev/block/bootdevice/by-name/userdata"
    mount_point := "/data"
    sizingOk := true
    nr_sec := 1000000
    hexOk := true
    openDmOk := true
    createOk := true
    statusOk := true
    statusDev := 0
    loadOk := fun _ => true
    suspendOk := true
    transformRc := 0
    size_already_done := 1000000
    mountOk := true }

/-- Environment of end-to-end scenario B: the transform reports only
500000 of the 1000000 requested sectors complete. -/
def envPartialXform : Env := { goodEnv with size_already_done := 500000 }

/-- Environment in which the hex encoding of the key fails. -/
def envHexFail : Env := { goodEnv with hexOk := false }

/-- Environment in which every table-load attempt fails. -/
def envLoadFail : Env := { goodEnv with loadOk := fun _ => false }

/-- Environment in which the device is already encrypted. -/
def envAlready : Env := { goodEnv with encrypted_state := "encrypted" }

/-- Environment in which the table load first succeeds on attempt 3
(0-indexed), i.e. the fourth issued load command. -/
def envLoadLate : Env := { goodEnv with loadOk := fun j => decide (j = 3) }

/-- Environment in which the mount collaborator reports failure. -/
def envMountFail : Env := { goodEnv with mountOk := false }

/-- A 3745-byte parameter payload: together with the 352 header bytes and
the null terminator it needs 4098 bytes, exceeding the 4096-byte buffer. -/
def paramsTooLong : List Char := List.replicate 3745 'a'

/-- The value `(x + 8) &&& 8` computed on line 176 is always 0 or 8, so in
particular at most 8. -/
theorem endix_le_eight (len : Nat) : endix len ≤ 8 := Nat.and_le_right

/-- The size check on line 178 can never fire: `endix` is at most 8, far
below the 4096-byte capacity, so `buildTable` always succeeds. -/
theorem buildTable_eq (nr_sec : Nat) (target_type : String) (crypt_params : List Char) :
    buildTable nr_sec target_type crypt_params =
      some (mkLoadBuf nr_sec target_type crypt_params) := by
  unfold buildTable
  rw [if_neg]
  intro h
  have := endix_le_eight crypt_params.length
  unfold DM_CRYPT_BUF_SIZE at h
  omega

/-- Every event emitted by the table-load retry loop is a `tableLoad`
command or the 500 ms sleep. -/
theorem lea_mem (loadOk : Nat → Bool) :
    ∀ fuel i e, e ∈ (loadEvsAux loadOk i fuel).1 →
      e = Ev.tableLoad ∨ e = Ev.sleepUs 500000 := by
  intro fuel
  induction fuel with
  | zero => intro i e he; simp [loadEvsAux] at he
  | succ f ih =>
    intro i e he
    unfold loadEvsAux at he
    split at he
    · simp at he; exact Or.inl he
    · split at he
      · simp at he; exact Or.inl he
      · simp at he
        rcases he with h | h | h
        · exact Or.inl h
        · exact Or.inr h
        · exact ih (i + 1) e h

/-- When every attempt fails, the retry loop reports failure after issuing
exactly `fuel` load commands with a sleep between consecutive attempts. -/
theorem lea_fail (loadOk : Nat → Bool) :
    ∀ fuel i, i + fuel = TABLE_LOAD_RETRIES → 0 < fuel →
      (∀ j, j < TABLE_LOAD_RETRIES → loadOk j = false) →
      (loadEvsAux loadOk i fuel).2 = false
      ∧ (loadEvsAux loadOk i fuel).1.count Ev.tableLoad = fuel
      ∧ (loadEvsAux loadOk i fuel).1.count (Ev.sleepUs 500000) = fuel - 1 := by
  intro fuel
  induction fuel with
  | zero => intro i _ h0; exact absurd h0 (by omega)
  | succ f ih =>
    intro i htot _ hall
    have hi : loadOk i = false := hall i (by unfold TABLE_LOAD_RETRIES at htot ⊢; omega)
    unfold loadEvsAux
    rw [if_neg (by simp [hi])]
    by_cases hlast : TABLE_LOAD_RETRIES ≤ i + 1
    · have hf0 : f = 0 := by unfold TABLE_LOAD_RETRIES at htot hlast; omega
      rw [if_pos hlast]
      refine ⟨rfl, ?_, ?_⟩ <;> simp [hf0, List.count_cons]
    · rw [if_neg hlast]
      have hf : 0 < f := by unfold TABLE_LOAD_RETRIES at htot hlast; omega
      obtain ⟨h1, h2, h3⟩ := ih (i + 1) (by omega) hf hall
      refine ⟨h1, ?_, ?_⟩ <;> simp [List.count_cons, h2, h3] <;> omega

/-- When attempt `k` is the first to succeed, the retry loop reports
success after exactly `k - i + 1` load commands and `k - i` sleeps. -/
theorem lea_succ (loadOk : Nat → Bool) :
    ∀ fuel i k, i ≤ k → k < i + fuel → k + 1 ≤ TABLE_LOAD_RETRIES →
      loadOk k = true → (∀ j, i ≤ j → j < k → loadOk j = false) →
      (loadEvsAux loadOk i fuel).2 = true
      ∧ (loadEvsAux loadOk i fuel).1.count Ev.tableLoad = k - i + 1
      ∧ (loadEvsAux loadOk i fuel).1.count (Ev.sleepUs 500000) = k - i := by
  intro fuel
  induction fuel with
  | zero => intro i k hik hk _ _ _; omega
  | succ f ih =>
    intro i k hik hk hbound hsucc hfirst
    unfold loadEvsAux
    by_cases hie : i = k
    · subst hie
      rw [if_pos hsucc]
      refine ⟨rfl, ?_, ?_⟩ <;> simp [List.count_cons]
    · have hlt : i < k := lt_of_le_of_ne hik hie
      have hi : loadOk i = false := hfirst i le_rfl hlt
      rw [if_neg (by simp [hi])]
      rw [if_neg (by unfold TABLE_LOAD_RETRIES at hbound ⊢; omega)]
      obtain ⟨h1, h2, h3⟩ := ih (i + 1) k (by omega) (by omega) hbound hsucc
        (fun j hj hjk => hfirst j (by omega) hjk)
      refine ⟨h1, ?_, ?_⟩ <;> simp [List.count_cons, h2, h3] <;> omega

/-- Every event in a `create_crypto_blk_dev` trace is one of the four
device-mapper commands or the retry sleep; in particular the trace never
contains a remove command, a property write, a mount or a log line. -/
theorem create_trace_dm (env : Env) (dm_name : String) (nr_sec : Nat)
    (target_type : String) (crypt_params : List Char) :
    ∀ e ∈ (create_crypto_blk_dev env dm_name nr_sec target_type crypt_params).2,
      e = Ev.devCreate ∨ e = Ev.devStatus ∨ e = Ev.devSuspend
      ∨ e = Ev.tableLoad ∨ e = Ev.sleepUs 500000 := by
  intro e he
  unfold create_crypto_blk_dev at he
  split at he
  · simp at he
  · split at he
    · simp at he; tauto
    · split at he
      · simp at he; tauto
      · rw [buildTable_eq] at he
        simp only at he
        split at he
        · simp at he
          rcases he with h | h | h
          · tauto
          · tauto
          · rcases lea_mem env.loadOk TABLE_LOAD_RETRIES 0 e h with h | h <;> tauto
        · split at he <;>
          · simp at he
            rcases he with h | h | h | h
            · tauto
            · tauto
            · rcases lea_mem env.loadOk TABLE_LOAD_RETRIES 0 e h with h | h <;> tauto
            · tauto

/-- When the control device opens, the `DM_DEV_CREATE` command is always
issued (it is the first ioctl of `create_crypto_blk_dev`). -/
theorem create_mem_devCreate (env : Env) (dm_name : String) (nr_sec : Nat)
    (target_type : String) (crypt_params : List Char)
    (hop : env.openDmOk = true) :
    Ev.devCreate ∈ (create_crypto_blk_dev env dm_name nr_sec target_type crypt_params).2 := by
  unfold create_crypto_blk_dev
  rw [if_neg (by simp [hop])]
  split
  · simp
  · split
    · simp
    · rw [buildTable_eq]
      simp only
      split
      · simp
      · split <;> simp

/-- Every event of a `default_key_params` trace is a log line. -/
theorem dkp_trace_log (real_blkdev : String) (key : List Nat) (hexOk : Bool) :
    ∀ e ∈ (default_key_params real_blkdev key hexOk).2, ∃ s, e = Ev.logStr s := by
  intro e he
  unfold default_key_params at he
  split at he <;> simp at he <;> exact ⟨_, he⟩

/-- C1: The claim says that when the fixed header plus the target-spec
record plus the params plus the terminator exceed the 4096-byte buffer,
table construction fails with `ParamsTooLarge`, no load command is issued
and the payload is never silently truncated.  Evaluating the code at a
3745-byte payload (352 + 3745 + 1 = 4098 > 4096) shows the opposite: the
line-176 expression `(nullix + 1 + 7) & 8` is 0 or 8, so the line-178
check never fires, `buildTable` succeeds, the `memcpy` clamp silently
truncates the payload (3744 of 3745 bytes copied), the null-terminator
write lands out of bounds, and the `DM_TABLE_LOAD` command is still
issued. -/
theorem ctb_params_too_large_never_detected :
    paramix + paramsTooLong.length + 1 > DM_CRYPT_BUF_SIZE
    ∧ buildTable 1000000 DEFAULT_KEY_TARGET_TYPE paramsTooLong
        = some (mkLoadBuf 1000000 DEFAULT_KEY_TARGET_TYPE paramsTooLong)
    ∧ (mkLoadBuf 1000000 DEFAULT_KEY_TARGET_TYPE paramsTooLong).copiedLen
        < paramsTooLong.length
    ∧ (mkLoadBuf 1000000 DEFAULT_KEY_TARGET_TYPE paramsTooLong).oobNullWrite = true
    ∧ Ev.tableLoad ∈ (create_crypto_blk_dev goodEnv kDmNameUserdata 1000000
        DEFAULT_KEY_TARGET_TYPE paramsTooLong).2 := by
  refine ⟨?_, buildTable_eq _ _ _, ?_, ?_, ?_⟩
  · simp only [paramsTooLong, List.length_replicate]; decide
  · simp only [mkLoadBuf, paramsTooLong, List.length_replicate]; decide
  · simp only [mkLoadBuf, paramsTooLong, List.length_replicate, nullix]; decide
  · simp [create_crypto_blk_dev, goodEnv, buildTable_eq, loadEvsAux, TABLE_LOAD_RETRIES]

/-- C2: The claim says the payload is placed right after the target-spec,
null-terminated, padded to the next 8-byte boundary, and that the
target-spec's `next` field is set to that padded end.  At a one-byte
payload the placement and the terminator hold, but the `next` field is set
to `(nullix + 1 + 7) & 8 = 8`, not to the 8-byte-aligned end 360 that the
line-176 comment describes. -/
theorem ctb_next_field_not_padded_end :
    buildTable 1000000 DEFAULT_KEY_TARGET_TYPE [Char.ofNat 112]
      = some (mkLoadBuf 1000000 DEFAULT_KEY_TARGET_TYPE [Char.ofNat 112])
    ∧ bufferByte [Char.ofNat 112] paramix = Char.ofNat 112
    ∧ bufferByte [Char.ofNat 112] (nullix 1) = Char.ofNat 0
    ∧ (mkLoadBuf 1000000 DEFAULT_KEY_TARGET_TYPE [Char.ofNat 112]).tgt_next = 8
    ∧ alignedPaddedEnd 1 = 360
    ∧ (mkLoadBuf 1000000 DEFAULT_KEY_TARGET_TYPE [Char.ofNat 112]).tgt_next
        ≠ alignedPaddedEnd 1 := by
  decide

/-- C9: For all valid inputs, the encoded parameter string is exactly the
cipher name, the hex-encoded key, the backing-device path and the start
sector, concatenated in that order with single-space separators, and the
hex-encoded key has length twice the key's byte length. -/
theorem default_key_params_format_and_hex_length (real_blkdev : String) (key : List Nat) :
    (default_key_params real_blkdev key true).1
      = specEncodeParams "AES-256-XTS".data (strToHex key) real_blkdev.data "0".data
    ∧ (strToHex key).length = 2 * key.length := by
  constructor
  · have h1 : ("AES-256-XTS ".data : List Char) = "AES-256-XTS".data ++ " ".data := rfl
    have h2 : (" 0".data : List Char) = " ".data ++ "0".data := rfl
    simp [default_key_params, specEncodeParams, h1, h2]
  · induction key with
    | nil => simp [strToHex]
    | cons b bs ih => simp [strToHex, ih]; omega

/-- C4: The table-load step issues the load command up to exactly
`TABLE_LOAD_RETRIES = 10` attempts with a fixed 500 ms sleep between
attempts; if every attempt fails the function returns failure after
exactly 10 load commands and 9 sleeps and never issues the activate
(`DM_DEV_SUSPEND`) command, while a first success at attempt `k`
(0-indexed, `k + 1 ≤ 10`) stops after exactly `k + 1` load commands and
`k` sleeps and provisioning continues to the activate command. -/
theorem create_table_load_retry_policy (env : Env) (dm_name : String) (nr_sec : Nat)
    (target_type : String) (crypt_params : List Char)
    (hop : env.openDmOk = true) (hcr : env.createOk = true) (hst : env.statusOk = true) :
    ((∀ j, j < TABLE_LOAD_RETRIES → env.loadOk j = false) →
      (create_crypto_blk_dev env dm_name nr_sec target_type crypt_params).1 = none
      ∧ (create_crypto_blk_dev env dm_name nr_sec target_type crypt_params).2.count
          Ev.tableLoad = TABLE_LOAD_RETRIES
      ∧ (create_crypto_blk_dev env dm_name nr_sec target_type crypt_params).2.count
          (Ev.sleepUs 500000) = TABLE_LOAD_RETRIES - 1
      ∧ Ev.devSuspend ∉ (create_crypto_blk_dev env dm_name nr_sec target_type crypt_params).2)
    ∧ (∀ k, k + 1 ≤ TABLE_LOAD_RETRIES → env.loadOk k = true →
        (∀ j, j < k → env.loadOk j = false) →
        (create_crypto_blk_dev env dm_name nr_sec target_type crypt_params).2.count
            Ev.tableLoad = k + 1
        ∧ (create_crypto_blk_dev env dm_name nr_sec target_type crypt_params).2.count
            (Ev.sleepUs 500000) = k
        ∧ Ev.devSuspend ∈ (create_crypto_blk_dev env dm_name nr_sec target_type crypt_params).2) := by
  constructor
  · intro hall
    obtain ⟨h1, h2, h3⟩ := lea_fail env.loadOk TABLE_LOAD_RETRIES 0 (by simp) (by decide) hall
    have hrw : create_crypto_blk_dev env dm_name nr_sec target_type crypt_params
        = (none, [Ev.devCreate, Ev.devStatus]
            ++ (loadEvsAux env.loadOk 0 TABLE_LOAD_RETRIES).1) := by
      simp [create_crypto_blk_dev, hop, hcr, hst, buildTable_eq, h1]
    rw [hrw]
    refine ⟨rfl, ?_, ?_, ?_⟩
    · simp [List.count_append, h2, List.count_cons]
    · simp [List.count_append, h3, List.count_cons]
    · intro hmem
      simp at hmem
      rcases lea_mem env.loadOk TABLE_LOAD_RETRIES 0 Ev.devSuspend hmem with h | h <;> simp at h
  · intro k hk hkOk hfirst
    obtain ⟨h1, h2, h3⟩ := lea_succ env.loadOk TABLE_LOAD_RETRIES 0 k (Nat.zero_le k)
      (by unfold TABLE_LOAD_RETRIES at hk ⊢; omega) hk hkOk (fun j _ hj => hfirst j hj)
    have hrw : (create_crypto_blk_dev env dm_name nr_sec target_type crypt_params).2
        = ([Ev.devCreate, Ev.devStatus]
            ++ (loadEvsAux env.loadOk 0 TABLE_LOAD_RETRIES).1) ++ [Ev.devSuspend] := by
      simp only [create_crypto_blk_dev, hop, hcr, hst, buildTable_eq]
      simp only [Bool.true_eq_false, if_false, h1]
      split <;> rfl
    rw [hrw]
    refine ⟨?_, ?_, ?_⟩
    · simp [List.count_append, h2, List.count_cons]
    · simp [List.count_append, h3, List.count_cons]
    · simp

/-- C4 witness: with a first load success at attempt 3 (0-indexed) the
trace holds exactly 4 load commands and 3 sleeps and reaches the activate
command; with every attempt failing the result is failure after exactly 10
load commands and 9 sleeps and the activate command is never issued. -/
theorem create_table_load_retry_policy_witness :
    ((create_crypto_blk_dev envLoadLate kDmNameUserdata 1000
        DEFAULT_KEY_TARGET_TYPE []).2.count Ev.tableLoad = 4
      ∧ (create_crypto_blk_dev envLoadLate kDmNameUserdata 1000
          DEFAULT_KEY_TARGET_TYPE []).2.count (Ev.sleepUs 500000) = 3
      ∧ Ev.devSuspend ∈ (create_crypto_blk_dev envLoadLate kDmNameUserdata 1000
          DEFAULT_KEY_TARGET_TYPE []).2)
    ∧ ((create_crypto_blk_dev envLoadFail kDmNameUserdata 1000
          DEFAULT_KEY_TARGET_TYPE []).1 = none
      ∧ (create_crypto_blk_dev envLoadFail kDmNameUserdata 1000
          DEFAULT_KEY_TARGET_TYPE []).2.count Ev.tableLoad = TABLE_LOAD_RETRIES
      ∧ (create_crypto_blk_dev envLoadFail kDmNameUserdata 1000
          DEFAULT_KEY_TARGET_TYPE []).2.count (Ev.sleepUs 500000) = TABLE_LOAD_RETRIES - 1
      ∧ Ev.devSuspend ∉ (create_crypto_blk_dev envLoadFail kDmNameUserdata 1000
          DEFAULT_KEY_TARGET_TYPE []).2) :=
  ⟨(create_table_load_retry_policy envLoadLate kDmNameUserdata 1000
      DEFAULT_KEY_TARGET_TYPE [] rfl rfl rfl).2 3 (by decide) (by decide) (by decide),
   (create_table_load_retry_policy envLoadFail kDmNameUserdata 1000
      DEFAULT_KEY_TARGET_TYPE [] rfl rfl rfl).1 (by decide)⟩

/-- C10: When `create_crypto_blk_dev` fails after the create-mapping
command succeeded (table load or activation failure), it returns failure
with the create command in its trace and no remove command anywhere, so
the kernel mapping stays registered. -/
theorem create_failure_keeps_mapping (env : Env) (dm_name : String) (nr_sec : Nat)
    (target_type : String) (crypt_params : List Char)
    (hop : env.openDmOk = true) (hcr : env.createOk = true)
    (hfail : (create_crypto_blk_dev env dm_name nr_sec target_type crypt_params).1 = none) :
    Ev.devCreate ∈ (create_crypto_blk_dev env dm_name nr_sec target_type crypt_params).2
    ∧ Ev.devRemove ∉ (create_crypto_blk_dev env dm_name nr_sec target_type crypt_params).2 := by
  refine ⟨create_mem_devCreate env dm_name nr_sec target_type crypt_params hop, ?_⟩
  intro hmem
  rcases create_trace_dm env dm_name nr_sec target_type crypt_params Ev.devRemove hmem
    with h | h | h | h | h <;> simp at h

/-- C10 witness: with every table-load attempt failing, the failed run's
trace holds the create command and no remove command. -/
theorem create_failure_keeps_mapping_witness :
    Ev.devCreate ∈ (create_crypto_blk_dev envLoadFail kDmNameUserdata 1000
      DEFAULT_KEY_TARGET_TYPE []).2
    ∧ Ev.devRemove ∉ (create_crypto_blk_dev envLoadFail kDmNameUserdata 1000
      DEFAULT_KEY_TARGET_TYPE []).2 :=
  create_failure_keeps_mapping envLoadFail kDmNameUserdata 1000
    DEFAULT_KEY_TARGET_TYPE [] rfl rfl (by decide)

/-- No event of the parameter-encoding trace or of the provisioning trace
is a property write. -/
theorem setProp_not_in_pre (env : Env) (k v : String) :
    (∀ e ∈ (default_key_params env.blk_device env.key env.hexOk).2, e ≠ Ev.setProp k v)
    ∧ (∀ e ∈ (create_crypto_blk_dev env kDmNameUserdata env.nr_sec DEFAULT_KEY_TARGET_TYPE
        (default_key_params env.blk_device env.key env.hexOk).1).2, e ≠ Ev.setProp k v) := by
  constructor
  · intro e he heq
    obtain ⟨s, hs⟩ := dkp_trace_log env.blk_device env.key env.hexOk e he
    rw [heq] at hs
    simp at hs
  · intro e he heq
    rcases create_trace_dm env kDmNameUserdata env.nr_sec DEFAULT_KEY_TARGET_TYPE
        (default_key_params env.blk_device env.key env.hexOk).1 e he with h | h | h | h | h <;>
      (rw [heq] at h; simp at h)

/-- When the in-place transform reports fewer sectors than requested,
`e4crypt_enable_crypto` fails and writes no property at all. -/
theorem enable_crypto_incomplete_aux (env : Env)
    (h : env.size_already_done ≠ env.nr_sec) :
    (e4crypt_enable_crypto env).1 = false
    ∧ ∀ k v, Ev.setProp k v ∉ (e4crypt_enable_crypto env).2 := by
  simp only [e4crypt_enable_crypto]
  split
  · exact ⟨rfl, by intro k v hm; simp at hm⟩
  split
  · exact ⟨rfl, by intro k v hm; simp at hm⟩
  split
  · exact ⟨rfl, by intro k v hm; simp at hm⟩
  split
  · exact ⟨rfl, by intro k v hm; simp at hm⟩
  split
  · refine ⟨rfl, fun k v hm => ?_⟩
    simp at hm
    rcases hm with h' | h'
    · exact (setProp_not_in_pre env k v).1 _ h' rfl
    · exact (setProp_not_in_pre env k v).2 _ h' rfl
  · split <;>
    · refine ⟨rfl, fun k v hm => ?_⟩
      simp at hm
      rcases hm with h' | h'
      · exact (setProp_not_in_pre env k v).1 _ h' rfl
      · exact (setProp_not_in_pre env k v).2 _ h' rfl

/-- C3: `e4crypt_enable_crypto` writes `ro.crypto.state = "encrypted"`
only when the transform completed exactly the requested sector count; when
the transform is incomplete the operation fails, the state flag is never
written and the `trigger_reset_main` restart signal is never sent. -/
theorem enable_crypto_flag_requires_full_transform (env : Env) :
    (Ev.setProp "ro.crypto.state" "encrypted" ∈ (e4crypt_enable_crypto env).2 →
      env.size_already_done = env.nr_sec)
    ∧ (env.size_already_done ≠ env.nr_sec →
      (e4crypt_enable_crypto env).1 = false
      ∧ Ev.setProp "ro.crypto.state" "encrypted" ∉ (e4crypt_enable_crypto env).2
      ∧ Ev.setProp "vold.decrypt" "trigger_reset_main" ∉ (e4crypt_enable_crypto env).2) := by
  constructor
  · intro hmem
    by_contra hne
    exact (enable_crypto_incomplete_aux env hne).2 _ _ hmem
  · intro hne
    obtain ⟨h1, h2⟩ := enable_crypto_incomplete_aux env hne
    exact ⟨h1, h2 _ _, h2 _ _⟩

/-- C3 witness: end-to-end scenario B — the transform reports 500000 of
1000000 sectors; the operation fails, the flag stays unset and no restart
signal is sent. -/
theorem enable_crypto_flag_requires_full_transform_witness :
    (e4crypt_enable_crypto envPartialXform).1 = false
    ∧ Ev.setProp "ro.crypto.state" "encrypted" ∉ (e4crypt_enable_crypto envPartialXform).2
    ∧ Ev.setProp "vold.decrypt" "trigger_reset_main"
        ∉ (e4crypt_enable_crypto envPartialXform).2 :=
  (enable_crypto_flag_requires_full_transform envPartialXform).2 (by decide)

/-- C7: When `ro.crypto.state` is already non-empty,
`e4crypt_enable_crypto` fails immediately: no key is read and no
device-mapper command is issued. -/
theorem enable_crypto_already_encrypted_noop (env : Env)
    (h : env.encrypted_state ≠ "") :
    e4crypt_enable_crypto env = (false, [])
    ∧ Ev.readKeyEv true ∉ (e4crypt_enable_crypto env).2
    ∧ Ev.devCreate ∉ (e4crypt_enable_crypto env).2 := by
  have he : e4crypt_enable_crypto env = (false, []) := by
    unfold e4crypt_enable_crypto
    rw [if_pos h]
  rw [he]
  simp

/-- C7 witness: with `ro.crypto.state = "encrypted"` the operation fails
with an empty trace. -/
theorem enable_crypto_already_encrypted_noop_witness :
    e4crypt_enable_crypto envAlready = (false, [])
    ∧ Ev.readKeyEv true ∉ (e4crypt_enable_crypto envAlready).2
    ∧ Ev.devCreate ∉ (e4crypt_enable_crypto envAlready).2 :=
  enable_crypto_already_encrypted_noop envAlready (by decide)

/-- Any event of the encoding trace or of the provisioning trace appears
in the trace of `e4crypt_enable_crypto` once the early guards pass. -/
theorem enable_pre_sub (env : Env)
    (hst : env.encrypted_state = "") (hrk : env.readKeyOk = true)
    (hdr : env.dataRecOk = true) (hsz : env.sizingOk = true) :
    ∀ e, e ∈ (default_key_params env.blk_device env.key env.hexOk).2
        ∨ e ∈ (create_crypto_blk_dev env kDmNameUserdata env.nr_sec DEFAULT_KEY_TARGET_TYPE
            (default_key_params env.blk_device env.key env.hexOk).1).2 →
      e ∈ (e4crypt_enable_crypto env).2 := by
  intro e he
  simp only [e4crypt_enable_crypto]
  rw [if_neg (by simp [hst]), if_neg (by simp [hrk]), if_neg (by simp [hdr]),
      if_neg (by simp [hsz])]
  split
  · simp
    tauto
  · split
    · simp
      tauto
    · split
      · simp
        tauto
      · simp
        tauto

/-- C6 counterexample: at an input whose hex conversion fails, the
enclosing operation does not abort: `default_key_params` returns an empty
parameter string, yet `e4crypt_enable_crypto` still issues the
create-mapping command and even returns overall success. -/
theorem encoding_failure_does_not_abort_cex :
    envHexFail.hexOk = false
    ∧ (default_key_params envHexFail.blk_device envHexFail.key envHexFail.hexOk).1 = []
    ∧ Ev.devCreate ∈ (e4crypt_enable_crypto envHexFail).2
    ∧ (e4crypt_enable_crypto envHexFail).1 = true := by
  refine ⟨rfl, rfl, by decide, by decide⟩

/-- C6 amended: when the hex conversion of the key fails,
`default_key_params` logs an error and returns an empty parameter string,
and the enclosing operation does not abort: it proceeds to provisioning
with the empty parameter string, issuing the create-mapping command. -/
theorem encoding_failure_empty_params_no_abort (env : Env)
    (hhex : env.hexOk = false) (hst : env.encrypted_state = "")
    (hrk : env.readKeyOk = true) (hdr : env.dataRecOk = true) (hsz : env.sizingOk = true)
    (hop : env.openDmOk = true) :
    (default_key_params env.blk_device env.key env.hexOk).1 = []
    ∧ Ev.logStr "Failed to turn key to hex".data ∈ (e4crypt_enable_crypto env).2
    ∧ Ev.devCreate ∈ (e4crypt_enable_crypto env).2 := by
  refine ⟨by simp [default_key_params, hhex], ?_, ?_⟩
  · exact enable_pre_sub env hst hrk hdr hsz _ (Or.inl (by simp [default_key_params, hhex]))
  · exact enable_pre_sub env hst hrk hdr hsz _
      (Or.inr (create_mem_devCreate env kDmNameUserdata env.nr_sec DEFAULT_KEY_TARGET_TYPE
        (default_key_params env.blk_device env.key env.hexOk).1 hop))

/-- C6 amended witness: concrete run with failing hex conversion. -/
theorem encoding_failure_empty_params_no_abort_witness :
    (default_key_params envHexFail.blk_device envHexFail.key envHexFail.hexOk).1 = []
    ∧ Ev.logStr "Failed to turn key to hex".data ∈ (e4crypt_enable_crypto envHexFail).2
    ∧ Ev.devCreate ∈ (e4crypt_enable_crypto envHexFail).2 :=
  encoding_failure_empty_params_no_abort envHexFail rfl rfl rfl rfl rfl rfl

/-- C5: Evaluating `e4crypt_enable_crypto` on a successful run shows the
non-empty `CryptoParams` string (which embeds the hex-encoded key) emitted
verbatim on the log channel — the `LOG(DEBUG) << "crypt_params: "` line of
`default_key_params` — contradicting the requirement that it never be
logged verbatim. -/
theorem crypt_params_logged_verbatim :
    (default_key_params goodEnv.blk_device goodEnv.key goodEnv.hexOk).1 ≠ []
    ∧ Ev.logStr ("crypt_params: ".data
        ++ (default_key_params goodEnv.blk_device goodEnv.key goodEnv.hexOk).1)
      ∈ (e4crypt_enable_crypto goodEnv).2 := by
  exact ⟨by decide, by decide⟩

/-- C8: `e4crypt_mount_metadata_encrypted` returns success as soon as the
mapping is established, for every mount outcome: the mount is attempted
with the collaborator-reported outcome recorded, the async kick-off is
spawned, and no failure path removes the mapping. -/
theorem mount_metadata_success_independent_of_mount (env : Env)
    (hrk : env.readKeyOk = true) (hdr : env.dataRecOk = true) (hsz : env.sizingOk = true)
    (hcrt : (create_crypto_blk_dev env kDmNameUserdata env.nr_sec DEFAULT_KEY_TARGET_TYPE
      (default_key_params env.blk_device env.key env.hexOk).1).1.isSome = true) :
    (e4crypt_mount_metadata_encrypted env).1 = true
    ∧ (∃ bd, Ev.mountCall env.mount_point bd env.mountOk
        ∈ (e4crypt_mount_metadata_encrypted env).2)
    ∧ Ev.spawnAsync ∈ (e4crypt_mount_metadata_encrypted env).2
    ∧ Ev.devRemove ∉ (e4crypt_mount_metadata_encrypted env).2 := by
  obtain ⟨bd, hbd⟩ := Option.isSome_iff_exists.mp hcrt
  have hrw : e4crypt_mount_metadata_encrypted env
      = (true, (Ev.readKeyEv false :: ((default_key_params env.blk_device env.key env.hexOk).2
          ++ (create_crypto_blk_dev env kDmNameUserdata env.nr_sec DEFAULT_KEY_TARGET_TYPE
              (default_key_params env.blk_device env.key env.hexOk).1).2)) ++
          [Ev.mountCall env.mount_point bd env.mountOk, Ev.spawnAsync]) := by
    simp only [e4crypt_mount_metadata_encrypted]
    rw [if_neg (by simp [hrk]), if_neg (by simp [hdr]), if_neg (by simp [hsz]), hbd]
  rw [hrw]
  refine ⟨rfl, ⟨bd, by simp⟩, by simp, ?_⟩
  intro hmem
  simp at hmem
  rcases hmem with h | h
  · obtain ⟨s, hs⟩ := dkp_trace_log env.blk_device env.key env.hexOk _ h
    simp at hs
  · rcases create_trace_dm env kDmNameUserdata env.nr_sec DEFAULT_KEY_TARGET_TYPE
      (default_key_params env.blk_device env.key env.hexOk).1 _ h with h' | h' | h' | h' | h' <;>
      simp at h'

/-- C8 witness: a run whose mount fails still returns success, with the
failed mount recorded in the trace and the mapping left in place. -/
theorem mount_metadata_success_independent_of_mount_witness :
    (e4crypt_mount_metadata_encrypted envMountFail).1 = true
    ∧ (∃ bd, Ev.mountCall envMountFail.mount_point bd envMountFail.mountOk
        ∈ (e4crypt_mount_metadata_encrypted envMountFail).2)
    ∧ Ev.spawnAsync ∈ (e4crypt_mount_metadata_encrypted envMountFail).2
    ∧ Ev.devRemove ∉ (e4crypt_mount_metadata_encrypted envMountFail).2 :=
  mount_metadata_success_independent_of_mount envMountFail rfl rfl rfl (by decide)

end MetadataCrypt
